import Mathlib

/-!
Verification of the Adafruit QT Py S3 wristband sketches.

The main artifact is `src/wristbandAtomic/wristbandAtomic.ino`: a command
dispatcher that pulses four GPIO-driven motors (pins A0..A3, modelled as
indices 1..4) and drives a single NeoPixel RGB indicator.  Each Arduino
statement with an observable effect (`digitalWrite`, `pixel.setPixelColor`,
`pixel.show`, `delay`) is embedded as an `Event`; each motion function of the
sketch is the constant list of events it performs (the functions read no
state).  Device state (motor energization, last-written pixel color) is
recovered by replaying a trace with `applyEvent`.

A second embedding covers the Wi-Fi join/reconnect retry loops of `setup()`
and `loop()`, and a third the LED-control variant (`Arduino_LED_Communication`,
`src/unnamed/part_000`).
-/

/-- An RGB color triple, as produced by `pixel.Color(r, g, b)`. -/
structure Color where
  r : Nat
  g : Nat
  b : Nat
deriving DecidableEq, Repr

/-- `pixel.Color(255, 255, 255)` — the stop/idle indication in `stopAllMotors`. -/
def white : Color := ⟨255, 255, 255⟩

/-- `pixel.Color(255, 0, 0)` — motor 1 / failure indication. -/
def red : Color := ⟨255, 0, 0⟩

/-- `pixel.Color(0, 255, 0)` — motor 2 / connected indication. -/
def green : Color := ⟨0, 255, 0⟩

/-- `pixel.Color(0, 0, 255)` — motor 3 indication. -/
def blue : Color := ⟨0, 0, 255⟩

/-- `pixel.Color(255, 255, 0)` — motor 4 / connecting indication. -/
def yellow : Color := ⟨255, 255, 0⟩

/-- `pixel.Color(0, 255, 255)` — all-motors indication. -/
def cyan : Color := ⟨0, 255, 255⟩

/-- One observable effect of the sketch.  Motor pins A0..A3 are identified by
their motor index 1..4.  `level = true` is `HIGH`, `false` is `LOW`. -/
inductive Event where
  | digitalWrite (pin : Nat) (level : Bool)
  | setPixelColor (c : Color)
  | showPixel
  | delay (ms : Nat)
deriving DecidableEq, Repr

/-- Device state: energization of the four motors and the last color written
to the NeoPixel. -/
structure DeviceState where
  motor1 : Bool
  motor2 : Bool
  motor3 : Bool
  motor4 : Bool
  pixelColor : Color
deriving DecidableEq, Repr

/-- State after `setup()` has run `stopAllMotors()`: everything idle, pixel
white. -/
def initState : DeviceState := ⟨false, false, false, false, white⟩

/-- Effect of one event on the device state. -/
def applyEvent (s : DeviceState) : Event → DeviceState
  | .digitalWrite pin level =>
    if pin = 1 then { s with motor1 := level }
    else if pin = 2 then { s with motor2 := level }
    else if pin = 3 then { s with motor3 := level }
    else if pin = 4 then { s with motor4 := level }
    else s
  | .setPixelColor c => { s with pixelColor := c }
  | .showPixel => s
  | .delay _ => s

/-- Final device state after replaying a trace from `s`. -/
def replay (s : DeviceState) (tr : List Event) : DeviceState :=
  tr.foldl applyEvent s

/-- All intermediate device states while replaying a trace from `s`
(including the initial state, and the state after each event). -/
def replayStates (s : DeviceState) : List Event → List DeviceState
  | [] => [s]
  | ev :: tr => s :: replayStates (applyEvent s ev) tr

/-- The motor indices currently energized, in ascending order. -/
def activeMotors (s : DeviceState) : List Nat :=
  (if s.motor1 then [1] else []) ++ (if s.motor2 then [2] else []) ++
  (if s.motor3 then [3] else []) ++ (if s.motor4 then [4] else [])

/-- Number of energized motors. -/
def activeCount (s : DeviceState) : Nat :=
  (activeMotors s).length

/-- All four motors are de-energized. -/
def motorsIdle (s : DeviceState) : Prop :=
  s.motor1 = false ∧ s.motor2 = false ∧ s.motor3 = false ∧ s.motor4 = false

/-- The (duration, energized motors) snapshot taken at each `delay` in a
trace, replaying from `s`: the device dwells in exactly these motor
configurations, in this order. -/
def delaySnapshots (s : DeviceState) : List Event → List (Nat × List Nat)
  | [] => []
  | ev :: tr =>
    match ev with
    | .delay ms => (ms, activeMotors s) :: delaySnapshots (applyEvent s ev) tr
    | _ => delaySnapshots (applyEvent s ev) tr

/-- `const unsigned long DURATION_ON = 200`. -/
def DURATION_ON : Nat := 200

/-- `const unsigned long DURATION_OFF = 80`. -/
def DURATION_OFF : Nat := 80

/-- `stopAllMotors()`: writes all four motor pins LOW, sets the NeoPixel to
white and shows it. -/
def stopAllMotors : List Event :=
  [.digitalWrite 1 false, .digitalWrite 2 false, .digitalWrite 3 false,
   .digitalWrite 4 false, .setPixelColor white, .showPixel]

/-- `upPulse()`: motor 1 HIGH, others LOW, red, on-delay; then
`stopAllMotors()` and off-delay. -/
def upPulse : List Event :=
  [.digitalWrite 1 true, .digitalWrite 2 false, .digitalWrite 3 false,
   .digitalWrite 4 false, .setPixelColor red, .showPixel, .delay DURATION_ON]
  ++ stopAllMotors ++ [.delay DURATION_OFF]

/-- `rightPulse()`: motor 2 HIGH, others LOW, green. -/
def rightPulse : List Event :=
  [.digitalWrite 1 false, .digitalWrite 2 true, .digitalWrite 3 false,
   .digitalWrite 4 false, .setPixelColor green, .showPixel, .delay DURATION_ON]
  ++ stopAllMotors ++ [.delay DURATION_OFF]

/-- `leftPulse()`: motor 3 HIGH, others LOW, blue. -/
def leftPulse : List Event :=
  [.digitalWrite 1 false, .digitalWrite 2 false, .digitalWrite 3 true,
   .digitalWrite 4 false, .setPixelColor blue, .showPixel, .delay DURATION_ON]
  ++ stopAllMotors ++ [.delay DURATION_OFF]

/-- `downPulse()`: motor 4 HIGH, others LOW, yellow. -/
def downPulse : List Event :=
  [.digitalWrite 1 false, .digitalWrite 2 false, .digitalWrite 3 false,
   .digitalWrite 4 true, .setPixelColor yellow, .showPixel, .delay DURATION_ON]
  ++ stopAllMotors ++ [.delay DURATION_OFF]

/-- `clockwisePulse()`: motor 1 (red), motor 2 (green), motor 4 (yellow),
motor 3 (blue), each bracketed by `stopAllMotors()` and the off-delay. -/
def clockwisePulse : List Event :=
  [.digitalWrite 1 true, .digitalWrite 2 false, .digitalWrite 3 false,
   .digitalWrite 4 false, .setPixelColor red, .showPixel, .delay DURATION_ON]
  ++ stopAllMotors ++ [.delay DURATION_OFF]
  ++ [.digitalWrite 1 false, .digitalWrite 2 true, .digitalWrite 3 false,
      .digitalWrite 4 false, .setPixelColor green, .showPixel, .delay DURATION_ON]
  ++ stopAllMotors ++ [.delay DURATION_OFF]
  ++ [.digitalWrite 1 false, .digitalWrite 2 false, .digitalWrite 3 false,
      .digitalWrite 4 true, .setPixelColor yellow, .showPixel, .delay DURATION_ON]
  ++ stopAllMotors ++ [.delay DURATION_OFF]
  ++ [.digitalWrite 1 false, .digitalWrite 2 false, .digitalWrite 3 true,
      .digitalWrite 4 false, .setPixelColor blue, .showPixel, .delay DURATION_ON]
  ++ stopAllMotors ++ [.delay DURATION_OFF]

/-- `counterClockwisePulse()`: motor 1 (red), motor 3 (blue), motor 4
(yellow), motor 2 (green), each bracketed by `stopAllMotors()` and the
off-delay. -/
def counterClockwisePulse : List Event :=
  [.digitalWrite 1 true, .digitalWrite 2 false, .digitalWrite 3 false,
   .digitalWrite 4 false, .setPixelColor red, .showPixel, .delay DURATION_ON]
  ++ stopAllMotors ++ [.delay DURATION_OFF]
  ++ [.digitalWrite 1 false, .digitalWrite 2 false, .digitalWrite 3 true,
      .digitalWrite 4 false, .setPixelColor blue, .showPixel, .delay DURATION_ON]
  ++ stopAllMotors ++ [.delay DURATION_OFF]
  ++ [.digitalWrite 1 false, .digitalWrite 2 false, .digitalWrite 3 false,
      .digitalWrite 4 true, .setPixelColor yellow, .showPixel, .delay DURATION_ON]
  ++ stopAllMotors ++ [.delay DURATION_OFF]
  ++ [.digitalWrite 1 false, .digitalWrite 2 true, .digitalWrite 3 false,
      .digitalWrite 4 false, .setPixelColor green, .showPixel, .delay DURATION_ON]
  ++ stopAllMotors ++ [.delay DURATION_OFF]

/-- `allMotorsPulse()`: all four motors HIGH, cyan, on-delay; then
`stopAllMotors()` and off-delay. -/
def allMotorsPulse : List Event :=
  [.digitalWrite 1 true, .digitalWrite 2 true, .digitalWrite 3 true,
   .digitalWrite 4 true, .setPixelColor cyan, .showPixel, .delay DURATION_ON]
  ++ stopAllMotors ++ [.delay DURATION_OFF]

/-- The `switch(c)` of `loop()`: maps a received command character to the
trace of the motion function it runs; the `default` branch runs
`stopAllMotors()`. -/
def dispatch (c : Char) : List Event :=
  if c = '1' then upPulse
  else if c = '2' then rightPulse
  else if c = '3' then leftPulse
  else if c = '4' then downPulse
  else if c = '5' then clockwisePulse
  else if c = '6' then counterClockwisePulse
  else if c = '7' then allMotorsPulse
  else stopAllMotors

/-- `true` iff the event energizes an actuator (writes a motor pin HIGH). -/
def energizes : Event → Bool
  | .digitalWrite _ level => level
  | _ => false

/-- The colors written to the NeoPixel along a trace, in order. -/
def pixelColorWrites : List Event → List Color
  | [] => []
  | .setPixelColor c :: tr => c :: pixelColorWrites tr
  | _ :: tr => pixelColorWrites tr

/-- `DebugLog(message)`: emits the message iff `debug_mode` is set. -/
def DebugLog (debug_mode : Bool) (message : String) : List String :=
  if debug_mode then [message] else []

/-- A motion step, following the spec's data model: the actuators to
energize simultaneously, the indicator color, an on-duration and an
off-duration. -/
structure MotionStep where
  actuators : List Nat
  color : Color
  onMs : Nat
  offMs : Nat

/-- Modelled from the spec: the Pulse Sequencer per-step contract. For one
step: (1) energize exactly the actuators named in the step, de-energizing
all others not named; (2) set the indicator to the step's color; (3) block
for the on-duration; (4) de-energize all actuators and set the indicator to
the idle color; (5) block for the off-duration. -/
def specExecStep (st : MotionStep) : List Event :=
  [.digitalWrite 1 (st.actuators.contains 1), .digitalWrite 2 (st.actuators.contains 2),
   .digitalWrite 3 (st.actuators.contains 3), .digitalWrite 4 (st.actuators.contains 4),
   .setPixelColor st.color, .showPixel, .delay st.onMs,
   .digitalWrite 1 false, .digitalWrite 2 false, .digitalWrite 3 false,
   .digitalWrite 4 false, .setPixelColor white, .showPixel, .delay st.offMs]

/-- Modelled from the spec: executing a motion definition runs its steps
strictly in order. -/
def specExecMotion (steps : List MotionStep) : List Event :=
  match steps with
  | [] => []
  | st :: rest => specExecStep st ++ specExecMotion rest

/-!
Wi-Fi join model.  `setup()` and the reconnect branch of `loop()` contain
the same bounded retry loop:

    int attempt_count = 0;
    const int max_attempts = 20;
    while (WiFi.status() != WL_CONNECTED && attempt_count < max_attempts) {
      pixel.setPixelColor(0, pixel.Color(255, 255, 0)); pixel.show();
      delay(500);
      attempt_count++;
    }
    if (WiFi.status() == WL_CONNECTED) { ... green ... }
    else { ... red ... }

The network is the environment: `env k` is whether `WiFi.status()` reads
`WL_CONNECTED` when `attempt_count = k`.
-/

/-- Events of one iteration of the retry loop body: yellow indication, show,
500 ms delay. -/
def attemptBlock : List Event :=
  [.setPixelColor yellow, .showPixel, .delay 500]

/-- `n` consecutive iterations of the retry loop body. -/
def attemptBlocks : Nat → List Event
  | 0 => []
  | n + 1 => attemptBlock ++ attemptBlocks n

/-- The retry `while` loop: from `attempt_count = count` with `fuel` attempts
remaining (`fuel = max_attempts - count`), returns the final
`attempt_count` and the events performed. -/
def retryLoop (env : Nat → Bool) : Nat → Nat → Nat × List Event
  | count, 0 => (count, [])
  | count, fuel + 1 =>
    if env count then (count, [])
    else ((retryLoop env (count + 1) fuel).1,
          attemptBlock ++ (retryLoop env (count + 1) fuel).2)

/-- Outcome of one join attempt sequence: final `attempt_count`, whether the
post-loop status check sees a connection, and the events performed. -/
structure JoinResult where
  attempts : Nat
  connected : Bool
  trace : List Event
deriving DecidableEq, Repr

/-- The shared join procedure: run the bounded retry loop from
`attempt_count = 0` with `max_attempts = 20`, then indicate green on success
or red on failure. -/
def wifiJoin (env : Nat → Bool) : JoinResult :=
  if env (retryLoop env 0 20).1 then
    ⟨(retryLoop env 0 20).1, true,
     (retryLoop env 0 20).2 ++ [.setPixelColor green, .showPixel]⟩
  else
    ⟨(retryLoop env 0 20).1, false,
     (retryLoop env 0 20).2 ++ [.setPixelColor red, .showPixel]⟩

/-- The startup join in `setup()`: the shared procedure followed by
`delay(1000)`. -/
def setupJoin (env : Nat → Bool) : JoinResult :=
  ⟨(wifiJoin env).attempts, (wifiJoin env).connected,
   (wifiJoin env).trace ++ [.delay 1000]⟩

/-- The reconnect branch of `loop()` (entered only when a disconnect is
detected): red disconnect indication first, then the shared procedure, then
`delay(10)`. -/
def loopReconnect (env : Nat → Bool) : JoinResult :=
  ⟨(wifiJoin env).attempts, (wifiJoin env).connected,
   [.setPixelColor red, .showPixel] ++ (wifiJoin env).trace ++ [.delay 10]⟩

/-- The LED-control variant (`Arduino_LED_Communication`): effect of one
received byte on the last-written NeoPixel color — 'R' red, 'G' green,
'B' blue, anything else leaves it unchanged. -/
def ledDispatch (c : Char) (last : Color) : Color :=
  if c = 'R' then red
  else if c = 'G' then green
  else if c = 'B' then blue
  else last

/-- Claim C1: command '5' runs the clockwise sequence and command '6' the
counterclockwise one; replayed from the idle state, '5' dwells in motor
configurations [1], idle, [2], idle, [4], idle, [3], idle and '6' in [1],
idle, [3], idle, [4], idle, [2], idle — each of the four steps energizes
exactly one motor alone, is followed by an idle gap, and there are exactly
four such steps. -/
theorem clockwise_and_counterclockwise_sequences :
    dispatch '5' = clockwisePulse ∧ dispatch '6' = counterClockwisePulse ∧
    delaySnapshots initState clockwisePulse =
      [(200, [1]), (80, []), (200, [2]), (80, []),
       (200, [4]), (80, []), (200, [3]), (80, [])] ∧
    delaySnapshots initState counterClockwisePulse =
      [(200, [1]), (80, []), (200, [3]), (80, []),
       (200, [4]), (80, []), (200, [2]), (80, [])] ∧
    ((delaySnapshots initState clockwisePulse).filter
      (fun p => !p.2.isEmpty)).length = 4 ∧
    ((delaySnapshots initState counterClockwisePulse).filter
      (fun p => !p.2.isEmpty)).length = 4 := by
  refine ⟨rfl, rfl, ?_, ?_, ?_, ?_⟩ <;> decide

/-- Claim C2: for every received command character (the seven mapped ones
and the `default` branch alike), replaying the dispatched trace from any
device state leaves all four motors de-energized: every motion function
ends with `stopAllMotors()` (followed only by a delay), and the default
branch is `stopAllMotors()` itself. -/
theorem all_motors_idle_after_any_command (s : DeviceState) (c : Char) :
    motorsIdle (replay s (dispatch c)) := by
  unfold dispatch
  repeat' split
  all_goals exact ⟨rfl, rfl, rfl, rfl⟩

/-- Claim C3: the command-to-motion mapping (a pure total function in this
embedding): '1' runs the up pulse on motor 1, '2' the right pulse on motor
2, '3' the left pulse on motor 3, '4' the down pulse on motor 4, and '7'
the all-motors pulse energizing all four simultaneously; replayed from
idle, each dwells first in exactly the mapped motor set, then in the idle
gap. -/
theorem command_to_motion_mapping :
    dispatch '1' = upPulse ∧ dispatch '2' = rightPulse ∧
    dispatch '3' = leftPulse ∧ dispatch '4' = downPulse ∧
    dispatch '7' = allMotorsPulse ∧
    delaySnapshots initState upPulse = [(200, [1]), (80, [])] ∧
    delaySnapshots initState rightPulse = [(200, [2]), (80, [])] ∧
    delaySnapshots initState leftPulse = [(200, [3]), (80, [])] ∧
    delaySnapshots initState downPulse = [(200, [4]), (80, [])] ∧
    delaySnapshots initState allMotorsPulse = [(200, [1, 2, 3, 4]), (80, [])] := by
  refine ⟨rfl, rfl, rfl, rfl, rfl, ?_, ?_, ?_, ?_, ?_⟩ <;> decide

/-- Claim C4: any command character outside '1'..'7' falls to the `default`
branch: the dispatched trace is exactly `stopAllMotors()`, it contains no
energizing write (no motor pin is driven HIGH), replaying it de-energizes
all motors from any state and leaves the device in the idle state, and the
invalid command is non-fatal — its diagnostic line is emitted iff debug
mode is enabled. -/
theorem invalid_command_is_idle_noop (s : DeviceState) (c : Char)
    (h1 : c ≠ '1') (h2 : c ≠ '2') (h3 : c ≠ '3') (h4 : c ≠ '4')
    (h5 : c ≠ '5') (h6 : c ≠ '6') (h7 : c ≠ '7') :
    dispatch c = stopAllMotors ∧
    (dispatch c).all (fun ev => !energizes ev) = true ∧
    motorsIdle (replay s (dispatch c)) ∧
    replay s (dispatch c) = initState ∧
    DebugLog true "Invalid command received. Stopping all motors." =
      ["Invalid command received. Stopping all motors."] ∧
    DebugLog false "Invalid command received. Stopping all motors." = [] := by
  have hd : dispatch c = stopAllMotors := by
    unfold dispatch
    rw [if_neg h1, if_neg h2, if_neg h3, if_neg h4, if_neg h5, if_neg h6, if_neg h7]
  refine ⟨hd, ?_, ?_, ?_, rfl, rfl⟩ <;> rw [hd]
  · decide
  · exact ⟨rfl, rfl, rfl, rfl⟩
  · rfl

/-- Witness for `invalid_command_is_idle_noop` at command '9' from the idle
state. -/
theorem invalid_command_is_idle_noop_witness :
    dispatch '9' = stopAllMotors ∧
    (dispatch '9').all (fun ev => !energizes ev) = true ∧
    motorsIdle (replay initState (dispatch '9')) ∧
    replay initState (dispatch '9') = initState ∧
    DebugLog true "Invalid command received. Stopping all motors." =
      ["Invalid command received. Stopping all motors."] ∧
    DebugLog false "Invalid command received. Stopping all motors." = [] :=
  invalid_command_is_idle_noop initState '9'
    (by decide) (by decide) (by decide) (by decide)
    (by decide) (by decide) (by decide)

/-- Claim C5: every motion function of the sketch is extensionally the
spec's per-step effect sequence, steps strictly in the defined order with
no reordering or overlap: its trace is exactly the concatenation, step by
step, of (energize exactly the named motors / set step color / on-delay /
de-energize all with idle color / off-delay). -/
theorem motion_traces_follow_step_contract :
    upPulse = specExecMotion [⟨[1], red, 200, 80⟩] ∧
    rightPulse = specExecMotion [⟨[2], green, 200, 80⟩] ∧
    leftPulse = specExecMotion [⟨[3], blue, 200, 80⟩] ∧
    downPulse = specExecMotion [⟨[4], yellow, 200, 80⟩] ∧
    clockwisePulse = specExecMotion
      [⟨[1], red, 200, 80⟩, ⟨[2], green, 200, 80⟩,
       ⟨[4], yellow, 200, 80⟩, ⟨[3], blue, 200, 80⟩] ∧
    counterClockwisePulse = specExecMotion
      [⟨[1], red, 200, 80⟩, ⟨[3], blue, 200, 80⟩,
       ⟨[4], yellow, 200, 80⟩, ⟨[2], green, 200, 80⟩] ∧
    allMotorsPulse = specExecMotion [⟨[1, 2, 3, 4], cyan, 200, 80⟩] := by
  refine ⟨?_, ?_, ?_, ?_, ?_, ?_, ?_⟩ <;> decide

/-- Claim C6: the idle-all action (`stopAllMotors()`, the resolution of any
unmapped command) is idempotent: from any device state, one execution
leaves all motors idle, a second execution leaves them idle again, and the
second execution does not change the device state produced by the first. -/
theorem idle_all_idempotent (s : DeviceState) :
    motorsIdle (replay s stopAllMotors) ∧
    motorsIdle (replay (replay s stopAllMotors) stopAllMotors) ∧
    replay (replay s stopAllMotors) stopAllMotors = replay s stopAllMotors :=
  ⟨⟨rfl, rfl, rfl, rfl⟩, ⟨rfl, rfl, rfl, rfl⟩, rfl⟩

/-- The retry loop never decreases `attempt_count`. -/
theorem retryLoop_count_ge (env : Nat → Bool) :
    ∀ fuel count, count ≤ (retryLoop env count fuel).1 := by
  intro fuel
  induction fuel with
  | zero => intro count; exact Nat.le_refl _
  | succ n ih =>
    intro count
    by_cases h : env count = true
    · simp [retryLoop, h]
    · simp only [retryLoop, h, if_false, Bool.false_eq_true]
      exact Nat.le_trans (Nat.le_succ _) (ih (count + 1))

/-- The retry loop makes at most `fuel` further attempts. -/
theorem retryLoop_count_le (env : Nat → Bool) :
    ∀ fuel count, (retryLoop env count fuel).1 ≤ count + fuel := by
  intro fuel
  induction fuel with
  | zero => intro count; exact Nat.le_refl _
  | succ n ih =>
    intro count
    by_cases h : env count = true
    · simp [retryLoop, h]
    · simp only [retryLoop, h, if_false, Bool.false_eq_true]
      exact Nat.le_trans (ih (count + 1)) (by omega)

/-- The retry loop's trace is one attempt block per attempt made. -/
theorem retryLoop_trace (env : Nat → Bool) :
    ∀ fuel count,
      (retryLoop env count fuel).2 =
        attemptBlocks ((retryLoop env count fuel).1 - count) := by
  intro fuel
  induction fuel with
  | zero => intro count; simp [retryLoop, attemptBlocks]
  | succ n ih =>
    intro count
    by_cases h : env count = true
    · simp [retryLoop, h, attemptBlocks]
    · simp only [retryLoop, h, if_false, Bool.false_eq_true]
      have hge : count + 1 ≤ (retryLoop env (count + 1) n).1 :=
        retryLoop_count_ge env n (count + 1)
      rw [show (retryLoop env (count + 1) n).1 - count =
            ((retryLoop env (count + 1) n).1 - (count + 1)) + 1 by omega]
      rw [show attemptBlocks (((retryLoop env (count + 1) n).1 - (count + 1)) + 1) =
            attemptBlock ++ attemptBlocks ((retryLoop env (count + 1) n).1 - (count + 1))
          from rfl]
      rw [ih (count + 1)]

/-- If the status first reads connected at the `k`-th check and `k` is
within the attempt budget, the loop exits with `attempt_count = count + k`. -/
theorem retryLoop_first_success (env : Nat → Bool) :
    ∀ fuel count k, k < fuel → env (count + k) = true →
      (∀ j, j < k → env (count + j) = false) →
      (retryLoop env count fuel).1 = count + k := by
  intro fuel
  induction fuel with
  | zero => intro count k hk; omega
  | succ n ih =>
    intro count k hk htrue hfalse
    by_cases h : env count = true
    · have hk0 : k = 0 := by
        by_contra hne
        have h0 : env (count + 0) = false := hfalse 0 (by omega)
        rw [Nat.add_zero] at h0
        rw [h0] at h
        exact absurd h (by simp)
      subst hk0
      simp [retryLoop, h]
    · have hk0 : k ≠ 0 := by
        intro h0
        subst h0
        rw [Nat.add_zero] at htrue
        exact h htrue
      obtain ⟨k', rfl⟩ : ∃ k', k = k' + 1 := ⟨k - 1, by omega⟩
      simp only [retryLoop, h, if_false, Bool.false_eq_true]
      have hr := ih (count + 1) k' (by omega)
        (by rw [show count + 1 + k' = count + (k' + 1) by omega]; exact htrue)
        (fun j hj => by
          rw [show count + 1 + j = count + (j + 1) by omega]
          exact hfalse (j + 1) (by omega))
      omega

/-- If the status never reads connected within the attempt budget, the loop
runs all `fuel` attempts and exhausts. -/
theorem retryLoop_all_fail (env : Nat → Bool) :
    ∀ fuel count, (∀ k, k < fuel → env (count + k) = false) →
      retryLoop env count fuel = (count + fuel, attemptBlocks fuel) := by
  intro fuel
  induction fuel with
  | zero => intro count h; simp [retryLoop, attemptBlocks]
  | succ n ih =>
    intro count h
    have h0 : env count = false := by
      have := h 0 (by omega)
      rwa [Nat.add_zero] at this
    have hrest := ih (count + 1) (fun k hk => by
      have := h (k + 1) (by omega)
      rwa [show count + (k + 1) = count + 1 + k by omega] at this)
    simp only [retryLoop, h0, if_false, Bool.false_eq_true, hrest]
    refine Prod.ext ?_ ?_
    · simp; omega
    · rfl

/-- The join procedure's final attempt count is the retry loop's. -/
theorem wifiJoin_attempts (env : Nat → Bool) :
    (wifiJoin env).attempts = (retryLoop env 0 20).1 := by
  unfold wifiJoin
  split <;> rfl

/-- The join procedure's connectivity verdict is the post-loop status check. -/
theorem wifiJoin_connected (env : Nat → Bool) :
    (wifiJoin env).connected = env (retryLoop env 0 20).1 := by
  unfold wifiJoin
  split
  case isTrue h => exact h.symm
  case isFalse h =>
    simp only [Bool.not_eq_true] at h
    exact h.symm

/-- The join procedure's trace: one attempt block per attempt, then the
green or red verdict indication. -/
theorem wifiJoin_trace (env : Nat → Bool) :
    (wifiJoin env).trace =
      attemptBlocks (wifiJoin env).attempts ++
        (if (wifiJoin env).connected then
          [Event.setPixelColor green, Event.showPixel]
         else [Event.setPixelColor red, Event.showPixel]) := by
  have htr : (retryLoop env 0 20).2 = attemptBlocks (retryLoop env 0 20).1 := by
    have := retryLoop_trace env 20 0
    rwa [Nat.sub_zero] at this
  unfold wifiJoin
  split <;> simp [htr]

/-- Claim C7: the network-join retry loop, both at startup (`setup()`) and
on disconnect detection (`loop()`), is bounded: it makes at most 20
attempts, each attempt is one yellow-indication/500 ms-delay block and the
trace is exactly one block per attempt followed by the verdict indication;
if the status first reads connected at check `k < 20` the loop stops after
exactly `k` attempts with a connected verdict; if the status never reads
connected through check 20 the loop exhausts all 20 attempts and ends in
the terminal red failure indication with nothing after it but the final
fixed delay. -/
theorem wifi_join_bounded_retry (env : Nat → Bool) :
    (setupJoin env).attempts ≤ 20 ∧
    (loopReconnect env).attempts ≤ 20 ∧
    (wifiJoin env).trace =
      attemptBlocks (wifiJoin env).attempts ++
        (if (wifiJoin env).connected then
          [Event.setPixelColor green, Event.showPixel]
         else [Event.setPixelColor red, Event.showPixel]) ∧
    (∀ k, k < 20 → env k = true → (∀ j, j < k → env j = false) →
      (setupJoin env).attempts = k ∧ (setupJoin env).connected = true ∧
      (loopReconnect env).attempts = k) ∧
    ((∀ k, k ≤ 20 → env k = false) →
      (setupJoin env).attempts = 20 ∧ (setupJoin env).connected = false ∧
      (loopReconnect env).connected = false ∧
      (setupJoin env).trace =
        attemptBlocks 20 ++
          [Event.setPixelColor red, Event.showPixel, Event.delay 1000]) := by
  have hsa : (setupJoin env).attempts = (wifiJoin env).attempts := rfl
  have hla : (loopReconnect env).attempts = (wifiJoin env).attempts := rfl
  have hsc : (setupJoin env).connected = (wifiJoin env).connected := rfl
  have hlc : (loopReconnect env).connected = (wifiJoin env).connected := rfl
  have hbound : (wifiJoin env).attempts ≤ 20 := by
    rw [wifiJoin_attempts]
    have := retryLoop_count_le env 20 0
    omega
  refine ⟨by rw [hsa]; exact hbound, by rw [hla]; exact hbound,
          wifiJoin_trace env, ?_, ?_⟩
  · intro k hk htrue hfalse
    have hr : (retryLoop env 0 20).1 = k := by
      have := retryLoop_first_success env 20 0 k hk
        (by rwa [Nat.zero_add]) (fun j hj => by rw [Nat.zero_add]; exact hfalse j hj)
      rwa [Nat.zero_add] at this
    refine ⟨by rw [hsa, wifiJoin_attempts, hr], ?_,
            by rw [hla, wifiJoin_attempts, hr]⟩
    rw [hsc, wifiJoin_connected, hr]
    exact htrue
  · intro hfail
    have hr : retryLoop env 0 20 = (20, attemptBlocks 20) := by
      have := retryLoop_all_fail env 20 0 (fun k hk => by
        rw [Nat.zero_add]; exact hfail k (Nat.le_of_lt hk))
      rwa [Nat.zero_add] at this
    have h20 : env (retryLoop env 0 20).1 = false := by
      rw [hr]
      exact hfail 20 (Nat.le_refl 20)
    refine ⟨by rw [hsa, wifiJoin_attempts, hr], ?_, ?_, ?_⟩
    · rw [hsc, wifiJoin_connected]; exact h20
    · rw [hlc, wifiJoin_connected]; exact h20
    · show (wifiJoin env).trace ++ [Event.delay 1000] = _
      unfold wifiJoin
      rw [if_neg (by rw [h20]; simp)]
      rw [hr]
      simp

/-- Witness for `wifi_join_bounded_retry`: with a network that never
connects, startup exhausts exactly 20 attempts and reports failure; with a
network that first connects at check 3, startup stops after exactly 3
attempts. -/
theorem wifi_join_bounded_retry_witness :
    (setupJoin (fun _ => false)).attempts = 20 ∧
    (setupJoin (fun _ => false)).connected = false ∧
    (setupJoin (fun k => k == 3)).attempts = 3 := by
  have h1 := (wifi_join_bounded_retry (fun _ => false)).2.2.2.2
    (fun k hk => rfl)
  have h2 := (wifi_join_bounded_retry (fun k => k == 3)).2.2.2.1 3
    (by decide) (by decide)
    (fun j hj => by
      have : j ≠ 3 := by omega
      simpa using this)
  exact ⟨h1.1, h1.2.1, h2.1⟩

/-- Claim C8: the LED-control variant maps the received byte 'R' to red,
'G' to green, 'B' to blue, and any other byte leaves the last-written
color unchanged, with the invalid-command diagnostic emitted iff debug
mode is enabled; the driver's state is exactly the last-written color. -/
theorem led_variant_color_mapping (last : Color) (c : Char)
    (hr : c ≠ 'R') (hg : c ≠ 'G') (hb : c ≠ 'B') :
    ledDispatch 'R' last = red ∧
    ledDispatch 'G' last = green ∧
    ledDispatch 'B' last = blue ∧
    ledDispatch c last = last ∧
    DebugLog true "Invalid command." = ["Invalid command."] ∧
    DebugLog false "Invalid command." = [] := by
  refine ⟨rfl, ?_, ?_, ?_, rfl, rfl⟩
  · show (if ('G' : Char) = 'R' then red else _) = green
    rw [if_neg (by decide)]
    rw [if_pos rfl]
  · show (if ('B' : Char) = 'R' then red else _) = blue
    rw [if_neg (by decide), if_neg (by decide), if_pos rfl]
  · unfold ledDispatch
    rw [if_neg hr, if_neg hg, if_neg hb]

/-- Witness for `led_variant_color_mapping` at the unmapped byte 'X' with
white as the last-written color. -/
theorem led_variant_color_mapping_witness :
    ledDispatch 'R' white = red ∧
    ledDispatch 'G' white = green ∧
    ledDispatch 'B' white = blue ∧
    ledDispatch 'X' white = white ∧
    DebugLog true "Invalid command." = ["Invalid command."] ∧
    DebugLog false "Invalid command." = [] :=
  led_variant_color_mapping white 'X' (by decide) (by decide) (by decide)

/-- Claim C9: replaying from idle, every command among '1'..'6' keeps at
most one motor energized at every intermediate point of its effect
sequence, and every dwell snapshot of these commands names at most one
motor; command '7' reaches a point with more than one motor (all four)
energized. -/
theorem directional_commands_single_motor_invariant :
    (['1', '2', '3', '4', '5', '6'].all fun c =>
      (replayStates initState (dispatch c)).all fun st =>
        decide (activeCount st ≤ 1)) = true ∧
    (['1', '2', '3', '4', '5', '6'].all fun c =>
      (delaySnapshots initState (dispatch c)).all fun p =>
        decide (p.2.length ≤ 1)) = true ∧
    ((replayStates initState (dispatch '7')).any fun st =>
      decide (2 ≤ activeCount st)) = true := by
  refine ⟨?_, ?_, ?_⟩ <;> decide

/-- Claim C10: the idle indicator color is white (255,255,255) and is
written by the de-energize-all action from any state; each motor's step
color is fixed — motor 1 red (255,0,0), motor 2 green (0,255,0), motor 3
blue (0,0,255), motor 4 yellow (255,255,0) — and the all-motors pulse is
cyan (0,255,255); each pulse writes its step color then white, and the
rotation sequences write the per-motor colors in step order, each followed
by white. -/
theorem indicator_color_scheme (s : DeviceState) :
    white = ⟨255, 255, 255⟩ ∧
    (replay s stopAllMotors).pixelColor = white ∧
    pixelColorWrites stopAllMotors = [white] ∧
    pixelColorWrites upPulse = [red, white] ∧
    pixelColorWrites rightPulse = [green, white] ∧
    pixelColorWrites leftPulse = [blue, white] ∧
    pixelColorWrites downPulse = [yellow, white] ∧
    pixelColorWrites allMotorsPulse = [cyan, white] ∧
    pixelColorWrites clockwisePulse =
      [red, white, green, white, yellow, white, blue, white] ∧
    pixelColorWrites counterClockwisePulse =
      [red, white, blue, white, yellow, white, green, white] ∧
    red = ⟨255, 0, 0⟩ ∧ green = ⟨0, 255, 0⟩ ∧ blue = ⟨0, 0, 255⟩ ∧
    yellow = ⟨255, 255, 0⟩ ∧ cyan = ⟨0, 255, 255⟩ := by
  refine ⟨rfl, rfl, ?_, ?_, ?_, ?_, ?_, ?_, ?_, ?_, rfl, rfl, rfl, rfl, rfl⟩ <;> decide
